import Mathlib

/-!
# Verification of the libsql-orm query builder (`src/libsql-orm/src/query.rs`)

A shallow embedding of the SQL query-construction and filter-composition
engine: the clause data model, the recursive filter renderer that turns a
tree of `FilterOperator` values into parameterized SQL text plus a
positional parameter list, the value-conversion layer, and the execution
orchestration (`execute`, `execute_count`, `execute_paginated`) over an
abstract database collaborator.

Rust machine integers are embedded as `Nat`/`Int` (`u32` → `Nat`,
`i64` → `Int`, the `i as u64` cast made explicit); `f64` is embedded as an
abstract type distinguishing finite values from non-finite ones, which is
the only property of floats this code inspects; Rust `Result` is
`Except`; the asynchronous database connection is an oracle function from
statements to row lists or a transport error.
-/

namespace LibsqlOrm

/-- Model of IEEE-754 `f64` at the precision this code observes: the only
operation ever applied to a float here is `serde_json::Number::from_f64`,
which succeeds exactly on finite values. A finite double is carried as an
abstract integer index `val`; the three non-finite shapes are explicit. -/
inductive F64 where
  | finite (val : Int)
  | nan
  | inf
  | negInf
deriving DecidableEq, Repr

/-- `Value` — the builder's scalar parameter currency
(`Null | Integer(i64) | Real(f64) | Text(String) | Blob(Vec<u8>) | Boolean(bool)`).
Modelled from the spec: the `Value` enum lives in the crate root, outside
`query.rs`. Blob bytes are `Nat` (each < 256 in real executions; the bound
is never inspected by this code). -/
inductive Value where
  | Null
  | Integer (i : Int)
  | Real (f : F64)
  | Text (s : String)
  | Blob (b : List Nat)
  | Boolean (b : Bool)
deriving DecidableEq, Repr

/-- `libsql::Value` — the backend's native value type
(`Null | Integer(i64) | Real(f64) | Text(String) | Blob(Vec<u8>)`).
Note: no Boolean kind, which is why the builder lowers booleans. -/
inductive LibsqlValue where
  | Null
  | Integer (i : Int)
  | Real (f : F64)
  | Text (s : String)
  | Blob (b : List Nat)
deriving DecidableEq, Repr

/-- `serde_json::Number` — an integer (from `i64`/`u8`) or a finite double. -/
inductive JsonNumber where
  | int (i : Int)
  | float (v : Int)
deriving DecidableEq, Repr

/-- `serde_json::Value`, restricted to the shapes this code produces. -/
inductive JsonValue where
  | null
  | number (n : JsonNumber)
  | str (s : String)
  | arr (xs : List JsonValue)

/-- `serde_json::Number::from_f64`: `Some` exactly on finite doubles. -/
def JsonNumber.from_f64 : F64 → Option JsonNumber
  | .finite v => some (.float v)
  | .nan => none
  | .inf => none
  | .negInf => none

/-- Modelled from the spec: the comparison `Operator` enum (defined in the
crate's filter module, outside `query.rs`). `query.rs` only inspects
whether the operator is `IsNull`/`IsNotNull` and otherwise interpolates
the operator's display text. -/
inductive Operator where
  | Eq
  | Ne
  | Gt
  | Gte
  | Lt
  | Lte
  | Like
  | NotLike
  | In
  | NotIn
  | Between
  | NotBetween
  | IsNull
  | IsNotNull
deriving DecidableEq, Repr

/-- Modelled from the spec: the SQL display text of each operator
(the `Display` impl is outside `query.rs`; the spec's examples fix
`=`, `>`, `IN`, and the `BETWEEN` family). -/
def Operator.display : Operator → String
  | .Eq => "="
  | .Ne => "!="
  | .Gt => ">"
  | .Gte => ">="
  | .Lt => "<"
  | .Lte => "<="
  | .Like => "LIKE"
  | .NotLike => "NOT LIKE"
  | .In => "IN"
  | .NotIn => "NOT IN"
  | .Between => "BETWEEN"
  | .NotBetween => "NOT BETWEEN"
  | .IsNull => "IS NULL"
  | .IsNotNull => "IS NOT NULL"

/-- `FilterValue` — the value shape of a single predicate
(`Single | Multiple | Range(lower, upper)`), from the crate's filter
module per the spec. -/
inductive FilterValue where
  | Single (v : Value)
  | Multiple (vs : List Value)
  | Range (lo hi : Value)
deriving DecidableEq, Repr

/-- `Filter` — one `column OPERATOR value` predicate (spec §3). -/
structure Filter where
  column : String
  operator : Operator
  value : FilterValue
deriving DecidableEq, Repr

/-- `FilterOperator` — the recursive boolean filter tree
(`Single | And | Or | Not | Custom`), exactly the five variants matched in
`build_filter_operator`. -/
inductive FilterOperator where
  | Single (f : Filter)
  | And (fs : List FilterOperator)
  | Or (fs : List FilterOperator)
  | Not (f : FilterOperator)
  | Custom (condition : String)

/-- Modelled from the spec: `JoinType` enum with display texts
`INNER JOIN` / `LEFT JOIN` / `RIGHT JOIN` / `FULL JOIN` (spec §4.2 step 4). -/
inductive JoinType where
  | Inner
  | Left
  | Right
  | Full
deriving DecidableEq, Repr

def JoinType.display : JoinType → String
  | .Inner => "INNER JOIN"
  | .Left => "LEFT JOIN"
  | .Right => "RIGHT JOIN"
  | .Full => "FULL JOIN"

/-- `JoinClause` (private struct in `query.rs`). -/
structure JoinClause where
  join_type : JoinType
  table : String
  alias_ : Option String
  condition : String
deriving DecidableEq, Repr

/-- Modelled from the spec: the `Aggregate` function enum with display
texts `COUNT`/`SUM`/`AVG`/`MIN`/`MAX`. -/
inductive Aggregate where
  | Count
  | Sum
  | Avg
  | Min
  | Max
deriving DecidableEq, Repr

def Aggregate.display : Aggregate → String
  | .Count => "COUNT"
  | .Sum => "SUM"
  | .Avg => "AVG"
  | .Min => "MIN"
  | .Max => "MAX"

/-- `AggregateClause` (private struct in `query.rs`). -/
structure AggregateClause where
  function : Aggregate
  column : String
  alias_ : Option String
deriving DecidableEq, Repr

/-- Modelled from the spec: sort direction with display `ASC`/`DESC`
(spec §4.2 step 8). Source name: `SortOrder`. -/
inductive SortOrder where
  | Asc
  | Desc
deriving DecidableEq, Repr

def SortOrder.display : SortOrder → String
  | .Asc => "ASC"
  | .Desc => "DESC"

/-- Modelled from the spec: a single ORDER BY sort spec. Source name is
`Sort`, which is reserved in Lean. -/
structure SortSpec where
  column : String
  order : SortOrder
deriving DecidableEq, Repr

/-- `QueryBuilder` — the mutable accumulator for one logical statement
(`u32` limit/offset embedded as `Nat`). Rust's `Clone` impl is a
field-by-field deep copy, which for this pure embedding is the identity. -/
structure QueryBuilder where
  table : String
  select_columns : List String
  joins : List JoinClause
  where_clauses : List FilterOperator
  group_by : List String
  having : List FilterOperator
  order_by : List SortSpec
  limit : Option Nat
  offset : Option Nat
  distinct : Bool
  aggregate : Option AggregateClause

namespace QueryBuilder

/-- `QueryBuilder::new` — fresh builder for a table. -/
def new (table : String) : QueryBuilder :=
  { table := table
    select_columns := ["*"]
    joins := []
    where_clauses := []
    group_by := []
    having := []
    order_by := []
    limit := none
    offset := none
    distinct := false
    aggregate := none }

/-- `QueryBuilder::select`. -/
def select (qb : QueryBuilder) (columns : List String) : QueryBuilder :=
  { qb with select_columns := columns }

/-- `QueryBuilder::join`. -/
def join (qb : QueryBuilder) (join_type : JoinType) (table condition : String) :
    QueryBuilder :=
  { qb with joins := qb.joins ++
      [{ join_type := join_type, table := table, alias_ := none, condition := condition }] }

/-- `QueryBuilder::join_as`. -/
def join_as (qb : QueryBuilder) (join_type : JoinType) (table alias_ condition : String) :
    QueryBuilder :=
  { qb with joins := qb.joins ++
      [{ join_type := join_type, table := table, alias_ := some alias_, condition := condition }] }

/-- `QueryBuilder::r#where` — appends to the implicit top-level AND list
(`where` is reserved in Lean, hence the Rust raw-identifier spelling). -/
def rwhere (qb : QueryBuilder) (filter : FilterOperator) : QueryBuilder :=
  { qb with where_clauses := qb.where_clauses ++ [filter] }

/-- `QueryBuilder::group_by` — replaces the GROUP BY column list
(source method shares its name with the field; prefixed with `set_`). -/
def set_group_by (qb : QueryBuilder) (columns : List String) : QueryBuilder :=
  { qb with group_by := columns }

/-- `QueryBuilder::having` — appends to the HAVING list. -/
def add_having (qb : QueryBuilder) (filter : FilterOperator) : QueryBuilder :=
  { qb with having := qb.having ++ [filter] }

/-- `QueryBuilder::order_by` — appends one sort spec. -/
def add_order_by (qb : QueryBuilder) (sort : SortSpec) : QueryBuilder :=
  { qb with order_by := qb.order_by ++ [sort] }

/-- `QueryBuilder::limit`. -/
def set_limit (qb : QueryBuilder) (limit : Nat) : QueryBuilder :=
  { qb with limit := some limit }

/-- `QueryBuilder::offset`. -/
def set_offset (qb : QueryBuilder) (offset : Nat) : QueryBuilder :=
  { qb with offset := some offset }

/-- `QueryBuilder::distinct`. -/
def set_distinct (qb : QueryBuilder) (distinct : Bool) : QueryBuilder :=
  { qb with distinct := distinct }

/-- `QueryBuilder::aggregate`. -/
def set_aggregate (qb : QueryBuilder) (function : Aggregate) (column : String)
    (alias_ : Option String) : QueryBuilder :=
  { qb with aggregate := some { function := function, column := column, alias_ := alias_ } }

/-- `QueryBuilder::select_column`. -/
def select_column (qb : QueryBuilder) (column : String) : QueryBuilder :=
  { qb with select_columns := [column] }

/-- `QueryBuilder::where_condition` — wraps the raw condition in
`FilterOperator::Custom`; the `_params` argument is ignored by the source
(`_params` is unused there too). -/
def where_condition (qb : QueryBuilder) (condition : String)
    (_params : List LibsqlValue) : QueryBuilder :=
  { qb with where_clauses := qb.where_clauses ++ [FilterOperator.Custom condition] }

/-- `QueryBuilder::with_filter` — wraps a `Filter` in `FilterOperator::Single`. -/
def with_filter (qb : QueryBuilder) (filter : Filter) : QueryBuilder :=
  { qb with where_clauses := qb.where_clauses ++ [FilterOperator.Single filter] }

end QueryBuilder

/-- `crate::Error` — Query from `query.rs`; the other kinds are modelled
from the spec (§7: parse/deserialize and connection/transport). -/
inductive Error where
  | Query (msg : String)
  | Parse (msg : String)
  | Connection (msg : String)
deriving DecidableEq, Repr

/-- The `i as u64` cast applied to the `i64` count (two's-complement
reinterpretation: reduce modulo 2^64). -/
def i64_as_u64 (i : Int) : Nat := (i % (2 ^ 64)).toNat

/-- Rust's `Vec<T>::default()` / `String::default()` pair, the fallback of
`unwrap_or_default` in `where_in`. -/
def defaultSqlParams : String × List LibsqlValue := ("", [])

/-- Joining loop used throughout `query.rs`
(`for (i, x) in xs { if i > 0 { push sep }; push x }`), also the shape of
`Vec::join` / `String`'s `join`. -/
def joinSep (sep : String) : List String → String
  | [] => ""
  | [x] => x
  | x :: y :: xs => x ++ sep ++ joinSep sep (y :: xs)

namespace QueryBuilder

/-- `QueryBuilder::value_to_libsql_value` — lower a `Value` to the backend
type; `Boolean` becomes integer 1/0, everything else is structural. -/
def value_to_libsql_value (value : Value) : LibsqlValue :=
  match value with
  | .Null => .Null
  | .Integer i => .Integer i
  | .Real f => .Real f
  | .Text s => .Text s
  | .Blob b => .Blob b
  | .Boolean b => .Integer (if b then 1 else 0)

/-- `QueryBuilder::libsql_value_to_json_value` — convert a native row value
to the interchange representation; a non-finite `Real` becomes `null`. -/
def libsql_value_to_json_value (value : LibsqlValue) : JsonValue :=
  match value with
  | .Null => .null
  | .Integer i => .number (.int i)
  | .Real f =>
      match JsonNumber.from_f64 f with
      | some n => .number n
      | none => .null
  | .Text s => .str s
  | .Blob b => .arr (b.map (fun byte => .number (.int byte)))

/-- `QueryBuilder::build_filter` — render one `column op value` predicate.
Null-check operators emit `column IS [NOT] NULL` and bind nothing; the
other operators emit `column OP ` then the placeholder pattern of the
value shape, pushing one converted parameter per placeholder. -/
def build_filter (filter : Filter) : String × List LibsqlValue :=
  match filter.operator with
  | .IsNull => (filter.column ++ " IS NULL", [])
  | .IsNotNull => (filter.column ++ " IS NOT NULL", [])
  | op =>
      let head := filter.column ++ " " ++ op.display ++ " "
      match filter.value with
      | .Single v => (head ++ "?", [value_to_libsql_value v])
      | .Multiple vs =>
          (head ++ "(" ++ joinSep ", " (vs.map (fun _ => "?")) ++ ")",
           vs.map value_to_libsql_value)
      | .Range lo hi =>
          (head ++ "? AND ?", [value_to_libsql_value lo, value_to_libsql_value hi])

mutual

/-- `QueryBuilder::build_filter_operator` — the recursive renderer over the
filter tree; each case also returns its bound parameters in emission order. -/
def build_filter_operator : FilterOperator → String × List LibsqlValue
  | .Single f => build_filter f
  | .And fs =>
      let rs := build_filter_operator_list fs
      ("(" ++ joinSep " AND " (rs.map Prod.fst) ++ ")", (rs.map Prod.snd).flatten)
  | .Or fs =>
      let rs := build_filter_operator_list fs
      ("(" ++ joinSep " OR " (rs.map Prod.fst) ++ ")", (rs.map Prod.snd).flatten)
  | .Not f =>
      let r := build_filter_operator f
      ("NOT (" ++ r.fst ++ ")", r.snd)
  | .Custom condition => (condition, [])

/-- The child loop of `build_filter_operator`. -/
def build_filter_operator_list : List FilterOperator → List (String × List LibsqlValue)
  | [] => []
  | f :: fs => build_filter_operator f :: build_filter_operator_list fs

end

/-- `QueryBuilder::build_where_clause` — render a filter list (WHERE or
HAVING), joining siblings with " AND " and concatenating their parameters. -/
def build_where_clause (filters : List FilterOperator) : String × List LibsqlValue :=
  let rs := build_filter_operator_list filters
  (joinSep " AND " (rs.map Prod.fst), (rs.map Prod.snd).flatten)

/-- One `JOIN_TYPE table[ AS alias] ON condition` fragment of the join loop
shared by `build` and `build_count`. -/
def joinFragment (j : JoinClause) : String :=
  " " ++ j.join_type.display ++ " " ++ j.table ++
    (match j.alias_ with
     | some a => " AS " ++ a
     | none => "") ++ " ON " ++ j.condition

/-- `QueryBuilder::build` — emit the full SELECT statement and its
parameters. Always `Except.ok` in the source (every return path is `Ok`);
the `Except` wrapper mirrors the Rust `Result` signature. -/
def build (qb : QueryBuilder) : Except Error (String × List LibsqlValue) :=
  let selectPart :=
    "SELECT " ++ (if qb.distinct then "DISTINCT " else "") ++
      (match qb.aggregate with
       | some agg =>
           agg.function.display ++ "(" ++ agg.column ++ ")" ++
             (match agg.alias_ with
              | some a => " AS " ++ a
              | none => "")
       | none => joinSep ", " qb.select_columns)
  let fromPart := " FROM " ++ qb.table
  let joinPart := String.join (qb.joins.map joinFragment)
  let wherePair :=
    if qb.where_clauses.isEmpty then ("", [])
    else
      let r := build_where_clause qb.where_clauses
      (" WHERE " ++ r.fst, r.snd)
  let groupPart :=
    if qb.group_by.isEmpty then ""
    else " GROUP BY " ++ joinSep ", " qb.group_by
  let havingPair :=
    if qb.having.isEmpty then ("", [])
    else
      let r := build_where_clause qb.having
      (" HAVING " ++ r.fst, r.snd)
  let orderPart :=
    if qb.order_by.isEmpty then ""
    else
      " ORDER BY " ++
        joinSep ", " (qb.order_by.map (fun sort => sort.column ++ " " ++ sort.order.display))
  let limitPart :=
    match qb.limit with
    | some limit => " LIMIT " ++ toString limit
    | none => ""
  let offsetPart :=
    match qb.offset with
    | some offset => " OFFSET " ++ toString offset
    | none => ""
  Except.ok
    (selectPart ++ fromPart ++ joinPart ++ wherePair.fst ++ groupPart ++
       havingPair.fst ++ orderPart ++ limitPart ++ offsetPart,
     wherePair.snd ++ havingPair.snd)

/-- `QueryBuilder::build_count` — emit `SELECT COUNT(*)` plus FROM, joins,
WHERE, GROUP BY and HAVING only. Always `Except.ok`, as in `build`. -/
def build_count (qb : QueryBuilder) : Except Error (String × List LibsqlValue) :=
  let fromPart := " FROM " ++ qb.table
  let joinPart := String.join (qb.joins.map joinFragment)
  let wherePair :=
    if qb.where_clauses.isEmpty then ("", [])
    else
      let r := build_where_clause qb.where_clauses
      (" WHERE " ++ r.fst, r.snd)
  let groupPart :=
    if qb.group_by.isEmpty then ""
    else " GROUP BY " ++ joinSep ", " qb.group_by
  let havingPair :=
    if qb.having.isEmpty then ("", [])
    else
      let r := build_where_clause qb.having
      (" HAVING " ++ r.fst, r.snd)
  Except.ok
    ("SELECT COUNT(*)" ++ fromPart ++ joinPart ++ wherePair.fst ++ groupPart ++
       havingPair.fst,
     wherePair.snd ++ havingPair.snd)

/-- `QueryBuilder::where_in` — builds the subquery, splices only its SQL
text into a `Custom` clause (`unwrap_or_default` yields the empty string
if `build` ever failed), and drops the subquery's parameters on the floor. -/
def where_in (qb : QueryBuilder) (field : String) (subquery : QueryBuilder) :
    QueryBuilder :=
  let r :=
    match subquery.build with
    | .ok p => p
    | .error _ => defaultSqlParams
  { qb with where_clauses :=
      qb.where_clauses ++ [FilterOperator.Custom (field ++ " IN (" ++ r.fst ++ ")")] }

end QueryBuilder

/-! ## Placeholder counting and the parameter-ordering specification -/

/-- Number of `?` placeholder characters in a piece of SQL text. -/
def countQ (s : String) : Nat := s.data.count (Char.ofNat 63)

/-- `?`-freedom of a string, as a decidable Bool. -/
def qfreeStr (s : String) : Bool := s.data.all (fun c => c != Char.ofNat 63)

mutual

/-- A filter tree is placeholder-safe when no column name and no `Custom`
fragment contains a literal `?` character (values never reach the SQL
text, so they need no restriction). -/
def qfree : FilterOperator → Bool
  | .Single f => qfreeStr f.column
  | .And fs => qfreeList fs
  | .Or fs => qfreeList fs
  | .Not f => qfree f
  | .Custom condition => qfreeStr condition

def qfreeList : List FilterOperator → Bool
  | [] => true
  | f :: fs => qfree f && qfreeList fs

end

/-- Specification-side (§4.2a): the bound parameters of one predicate, in
placeholder order — none for null checks, the single value, the `Multiple`
elements in sequence order, or lower then upper for `Range`. -/
def specFilterParams (f : Filter) : List LibsqlValue :=
  match f.operator with
  | .IsNull => []
  | .IsNotNull => []
  | _ =>
      match f.value with
      | .Single v => [QueryBuilder.value_to_libsql_value v]
      | .Multiple vs => vs.map QueryBuilder.value_to_libsql_value
      | .Range lo hi =>
          [QueryBuilder.value_to_libsql_value lo, QueryBuilder.value_to_libsql_value hi]

mutual

/-- Specification-side: the parameters of a filter tree in the
left-to-right, depth-first order in which their placeholders are emitted:
children's parameters concatenated in sibling order, `Custom` contributing
none. -/
def specOperatorParams : FilterOperator → List LibsqlValue
  | .Single f => specFilterParams f
  | .And fs => specOperatorParamsList fs
  | .Or fs => specOperatorParamsList fs
  | .Not f => specOperatorParams f
  | .Custom _ => []

def specOperatorParamsList : List FilterOperator → List LibsqlValue
  | [] => []
  | f :: fs => specOperatorParams f ++ specOperatorParamsList fs

end

/-! ## Specification-side clause fragments (spec §4.2, steps 1–9) -/

/-- Spec steps 1–2: `SELECT`, `DISTINCT` if set, then either the aggregate
form `FUNCTION(column)[ AS alias]` — which always wins — or the joined
select-column list. -/
def specSelectFragment (qb : QueryBuilder) : String :=
  "SELECT " ++ (if qb.distinct then "DISTINCT " else "") ++
    (match qb.aggregate with
     | some agg =>
         agg.function.display ++ "(" ++ agg.column ++ ")" ++
           (match agg.alias_ with
            | some a => " AS " ++ a
            | none => "")
     | none => joinSep ", " qb.select_columns)

/-- Spec step 3: `FROM table`. -/
def specFromFragment (qb : QueryBuilder) : String := " FROM " ++ qb.table

/-- Spec step 4: joins in insertion order, each
`JOIN_TYPE table[ AS alias] ON condition`. -/
def specJoinsFragment (qb : QueryBuilder) : String :=
  String.join (qb.joins.map QueryBuilder.joinFragment)

/-- Spec step 5: `WHERE ` plus the recursive rendering when any WHERE
filters exist, nothing otherwise. -/
def specWhereFragment (qb : QueryBuilder) : String :=
  if qb.where_clauses.isEmpty then ""
  else " WHERE " ++ (QueryBuilder.build_where_clause qb.where_clauses).fst

/-- Spec step 6: `GROUP BY col1, col2, ...` in insertion order. -/
def specGroupFragment (qb : QueryBuilder) : String :=
  if qb.group_by.isEmpty then "" else " GROUP BY " ++ joinSep ", " qb.group_by

/-- Spec step 7: `HAVING ` plus the recursive rendering when any HAVING
filters exist. -/
def specHavingFragment (qb : QueryBuilder) : String :=
  if qb.having.isEmpty then ""
  else " HAVING " ++ (QueryBuilder.build_where_clause qb.having).fst

/-- Spec step 8: `ORDER BY col DIR, ...` in insertion order. -/
def specOrderFragment (qb : QueryBuilder) : String :=
  if qb.order_by.isEmpty then ""
  else
    " ORDER BY " ++
      joinSep ", " (qb.order_by.map (fun sort => sort.column ++ " " ++ sort.order.display))

/-- Spec step 9: a set limit is emitted inline as a literal integer. -/
def specLimitFragment (qb : QueryBuilder) : String :=
  match qb.limit with
  | some limit => " LIMIT " ++ toString limit
  | none => ""

/-- Spec step 9: a set offset is emitted inline as a literal integer. -/
def specOffsetFragment (qb : QueryBuilder) : String :=
  match qb.offset with
  | some offset => " OFFSET " ++ toString offset
  | none => ""

/-- The parameters contributed by the WHERE list (empty when no filters). -/
def specWhereParams (qb : QueryBuilder) : List LibsqlValue :=
  (QueryBuilder.build_where_clause qb.where_clauses).snd

/-- The parameters contributed by the HAVING list. -/
def specHavingParams (qb : QueryBuilder) : List LibsqlValue :=
  (QueryBuilder.build_where_clause qb.having).snd

/-! ## Execution orchestration over an abstract backend -/

/-- One row of a backend cursor. `cols` holds, per column index, the
optional column name (`column_name(i)`) and the value of `get_value(i)`
(`none` models a `get_value` error; an index past the end is likewise
absent). `column_count()` is `cols.length`. -/
structure Row where
  cols : List (Option String × Option LibsqlValue)

/-- `row.get_value(i).ok()`. -/
def Row.get_value (r : Row) (i : Nat) : Option LibsqlValue :=
  (r.cols.get? i).bind Prod.snd

/-- `row.column_name(i)`. -/
def Row.column_name (r : Row) (i : Nat) : Option String :=
  (r.cols.get? i).bind Prod.fst

/-- Modelled from the spec: the collaborator `Database` connection,
`query(sql, params) -> row cursor`, as a deterministic oracle from a
statement to its rows or a transport error (cursor-iteration errors
are folded into the statement error). -/
def Database := String → List LibsqlValue → Except Error (List Row)

/-- Modelled from the spec: the pagination collaborator exposing
`limit() -> u32` and `offset() -> u32`. -/
structure Pagination where
  limit : Nat
  offset : Nat
deriving DecidableEq, Repr

/-- Modelled from the spec: `PaginatedResult::with_total` — the envelope
carrying the page of records, the pagination spec, and the total count. -/
structure PaginatedResult (T : Type) where
  data : List T
  pagination : Pagination
  total : Nat
deriving DecidableEq, Repr

def PaginatedResult.with_total {T : Type} (data : List T) (pagination : Pagination)
    (total : Nat) : PaginatedResult T :=
  { data := data, pagination := pagination, total := total }

/-- The ordered column-name-to-interchange-value mapping built per row in
`execute` (a `HashMap<String, serde_json::Value>`; embedded as an
association list with insert-overwrite semantics). -/
def RecordMap := List (String × JsonValue)

/-- `HashMap::insert` — replace any earlier binding of the key. -/
def RecordMap.insert (m : RecordMap) (k : String) (v : JsonValue) : RecordMap :=
  (m.filter (fun kv => kv.fst != k)) ++ [(k, v)]

namespace QueryBuilder

/-- `QueryBuilder::execute_count` — run `build_count`, expect a first row
whose first value is an integer; anything else is a `Query` error. The
`i as u64` cast is explicit. -/
def execute_count (db : Database) (qb : QueryBuilder) : Except Error Nat :=
  match qb.build_count with
  | .error e => .error e
  | .ok (sql, params) =>
      match db sql params with
      | .error e => .error e
      | .ok rows =>
          match rows with
          | [] => .error (.Query "No count result")
          | row :: _ =>
              match row.get_value 0 with
              | some (.Integer i) => .ok (i64_as_u64 i)
              | _ => .error (.Query "Failed to get count")

/-- The per-row loop body of `execute`: fold over the column indices,
inserting `column_name(i) ↦ libsql_value_to_json_value(get_value(i)
unwrap_or Null)` and skipping unnamed columns. -/
def row_to_map (row : Row) : RecordMap :=
  (List.range row.cols.length).foldl
    (fun m i =>
      match row.column_name i with
      | some name =>
          m.insert name (libsql_value_to_json_value ((row.get_value i).getD .Null))
      | none => m)
    []

/-- The row loop of `execute`: deserialize each row's map into `T`
(`serde_json::from_value`, abstracted as the caller-chosen deserializer
`de`); the first failing row fails the whole call. -/
def rows_to_records {T : Type} (de : RecordMap → Except Error T) :
    List Row → Except Error (List T)
  | [] => .ok []
  | row :: rest =>
      match de (row_to_map row) with
      | .error e => .error e
      | .ok t =>
          match rows_to_records de rest with
          | .error e => .error e
          | .ok ts => .ok (t :: ts)

/-- `QueryBuilder::execute` — run `build`, query the backend, materialize
each row. Besides the result it reports the statements it issued, so that
statement-level claims are statable. -/
def execute {T : Type} (de : RecordMap → Except Error T) (db : Database)
    (qb : QueryBuilder) : List (String × List LibsqlValue) × Except Error (List T) :=
  match qb.build with
  | .error e => ([], .error e)
  | .ok (sql, params) =>
      match db sql params with
      | .error e => ([(sql, params)], .error e)
      | .ok rows => ([(sql, params)], rows_to_records de rows)

/-- The count extraction inside `execute_paginated`: first row's first
value if it is an integer, with `unwrap_or(0)` / no-row defaulting to 0. -/
def paginated_total (rows : List Row) : Nat :=
  match rows with
  | [] => 0
  | row :: _ =>
      match row.get_value 0 with
      | some (.Integer i) => i64_as_u64 i
      | _ => 0

/-- `QueryBuilder::execute_paginated` — a COUNT statement from a fresh
builder on the same table, then a data statement from `self.clone()` with
limit/offset overridden from the pagination spec; returns the page and the
total in one envelope, and reports the statements issued in order. -/
def execute_paginated {T : Type} (de : RecordMap → Except Error T) (db : Database)
    (qb : QueryBuilder) (pagination : Pagination) :
    List (String × List LibsqlValue) × Except Error (PaginatedResult T) :=
  let count_builder := (QueryBuilder.new qb.table).select ["COUNT(*) as count"]
  match count_builder.build_count with
  | .error e => ([], .error e)
  | .ok (count_sql, count_params) =>
      match db count_sql count_params with
      | .error e => ([(count_sql, count_params)], .error e)
      | .ok count_rows =>
          let total := paginated_total count_rows
          let data_builder := (qb.set_limit pagination.limit).set_offset pagination.offset
          let r := execute de db data_builder
          ((count_sql, count_params) :: r.fst,
           match r.snd with
           | .error e => .error e
           | .ok data => .ok (PaginatedResult.with_total data pagination total))

end QueryBuilder

/-! ## General lemmas -/

theorem countQ_append (a b : String) : countQ (a ++ b) = countQ a + countQ b := by
  simp [countQ, String.data_append, List.count_append]

theorem countQ_qfreeStr {s : String} (h : qfreeStr s = true) : countQ s = 0 := by
  simp only [qfreeStr, List.all_eq_true] at h
  simp only [countQ, List.count_eq_zero]
  intro hm
  have := h _ hm
  simp at this

theorem countQ_joinSep {sep : String} (h : countQ sep = 0) (l : List String) :
    countQ (joinSep sep l) = (l.map countQ).sum := by
  match l with
  | [] => simp [joinSep, countQ]
  | [x] => simp [joinSep]
  | x :: y :: xs =>
      have ih := countQ_joinSep h (y :: xs)
      simp only [joinSep, countQ_append, ih, List.map_cons, List.sum_cons, h]
      omega

theorem build_filter_operator_list_eq_map (fs : List FilterOperator) :
    QueryBuilder.build_filter_operator_list fs = fs.map QueryBuilder.build_filter_operator := by
  induction fs with
  | nil => rfl
  | cons f fs ih => simp [QueryBuilder.build_filter_operator_list, ih]

theorem countQ_opDisplay (op : Operator) : countQ op.display = 0 := by
  cases op <;> decide

theorem sum_map_one {a : Type} (l : List a) : (l.map fun _ => 1).sum = l.length := by
  induction l with
  | nil => rfl
  | cons x xs ih => simp [ih]; omega

theorem build_filter_snd_eq_spec (f : Filter) :
    (QueryBuilder.build_filter f).snd = specFilterParams f := by
  obtain ⟨col, op, v⟩ := f
  cases op <;> cases v <;> rfl

theorem build_filter_countQ (f : Filter) (h : qfreeStr f.column = true) :
    countQ (QueryBuilder.build_filter f).fst = (QueryBuilder.build_filter f).snd.length := by
  obtain ⟨col, op, v⟩ := f
  have hc : countQ col = 0 := countQ_qfreeStr h
  have hq : countQ "?" = 1 := by decide
  have hsp : countQ " " = 0 := by decide
  have hcm : countQ ", " = 0 := by decide
  have hp1 : countQ "(" = 0 := by decide
  have hp2 : countQ ")" = 0 := by decide
  cases op <;> cases v <;>
    simp [QueryBuilder.build_filter, countQ_append, hc, hq, hsp, hp1, hp2,
      countQ_opDisplay, countQ_joinSep hcm, List.map_map, Function.comp,
      sum_map_one] <;>
    decide

mutual

theorem bfo_snd_eq_spec (f : FilterOperator) :
    (QueryBuilder.build_filter_operator f).snd = specOperatorParams f := by
  match f with
  | .Single f => exact build_filter_snd_eq_spec f
  | .And fs =>
      simp only [QueryBuilder.build_filter_operator, specOperatorParams]
      exact bfoList_snd_eq_spec fs
  | .Or fs =>
      simp only [QueryBuilder.build_filter_operator, specOperatorParams]
      exact bfoList_snd_eq_spec fs
  | .Not f =>
      simp only [QueryBuilder.build_filter_operator, specOperatorParams]
      exact bfo_snd_eq_spec f
  | .Custom c => rfl

theorem bfoList_snd_eq_spec (fs : List FilterOperator) :
    ((QueryBuilder.build_filter_operator_list fs).map Prod.snd).flatten =
      specOperatorParamsList fs := by
  match fs with
  | [] => rfl
  | f :: fs =>
      simp only [QueryBuilder.build_filter_operator_list, specOperatorParamsList,
        List.map_cons, List.flatten_cons]
      rw [bfo_snd_eq_spec f, bfoList_snd_eq_spec fs]

end

mutual

theorem bfo_countQ (f : FilterOperator) (h : qfree f = true) :
    countQ (QueryBuilder.build_filter_operator f).fst =
      (QueryBuilder.build_filter_operator f).snd.length := by
  have hp1 : countQ "(" = 0 := by decide
  have hp2 : countQ ")" = 0 := by decide
  have hnp : countQ "NOT (" = 0 := by decide
  match f with
  | .Single f => exact build_filter_countQ f h
  | .And fs =>
      have hl := bfoList_countQ fs h
      have hs := congrArg List.sum hl
      simp only [QueryBuilder.build_filter_operator, countQ_append, hp1, hp2,
        countQ_joinSep (show countQ " AND " = 0 by decide), List.length_flatten,
        List.map_map, Function.comp_def]
      simp only [List.map_map, Function.comp_def] at hs
      omega
  | .Or fs =>
      have hl := bfoList_countQ fs h
      have hs := congrArg List.sum hl
      simp only [QueryBuilder.build_filter_operator, countQ_append, hp1, hp2,
        countQ_joinSep (show countQ " OR " = 0 by decide), List.length_flatten,
        List.map_map, Function.comp_def]
      simp only [List.map_map, Function.comp_def] at hs
      omega
  | .Not f =>
      have hf := bfo_countQ f h
      simp only [QueryBuilder.build_filter_operator, countQ_append, hnp, hp2]
      omega
  | .Custom c =>
      simpa [QueryBuilder.build_filter_operator] using countQ_qfreeStr h

theorem bfoList_countQ (fs : List FilterOperator) (h : qfreeList fs = true) :
    (QueryBuilder.build_filter_operator_list fs).map (fun r => countQ r.fst) =
      (QueryBuilder.build_filter_operator_list fs).map (fun r => r.snd.length) := by
  match fs with
  | [] => rfl
  | f :: fs =>
      simp only [qfreeList, Bool.and_eq_true] at h
      simp only [QueryBuilder.build_filter_operator_list, List.map_cons]
      rw [bfo_countQ f h.1, bfoList_countQ fs h.2]

end

theorem bwc_snd_eq_spec (fs : List FilterOperator) :
    (QueryBuilder.build_where_clause fs).snd = specOperatorParamsList fs :=
  bfoList_snd_eq_spec fs

theorem bwc_countQ (fs : List FilterOperator) (h : qfreeList fs = true) :
    countQ (QueryBuilder.build_where_clause fs).fst =
      (QueryBuilder.build_where_clause fs).snd.length := by
  have hl := bfoList_countQ fs h
  have hs := congrArg List.sum hl
  simp only [QueryBuilder.build_where_clause,
    countQ_joinSep (show countQ " AND " = 0 by decide), List.length_flatten,
    List.map_map, Function.comp_def]
  simp only [List.map_map, Function.comp_def] at hs
  omega

/-- `build` decomposed into the spec's grammar-ordered fragments. -/
theorem build_decomposition (qb : QueryBuilder) :
    QueryBuilder.build qb =
      .ok (specSelectFragment qb ++ specFromFragment qb ++ specJoinsFragment qb ++
             specWhereFragment qb ++ specGroupFragment qb ++ specHavingFragment qb ++
             specOrderFragment qb ++ specLimitFragment qb ++ specOffsetFragment qb,
           specWhereParams qb ++ specHavingParams qb) := by
  cases hw : qb.where_clauses <;> cases hh : qb.having <;>
    simp [QueryBuilder.build, specSelectFragment, specFromFragment, specJoinsFragment,
      specWhereFragment, specGroupFragment, specHavingFragment, specOrderFragment,
      specLimitFragment, specOffsetFragment, specWhereParams, specHavingParams, hw, hh,
      QueryBuilder.build_where_clause, QueryBuilder.build_filter_operator_list]

/-- `build_count` decomposed into `SELECT COUNT(*)` plus fragments 3–7. -/
theorem build_count_decomposition (qb : QueryBuilder) :
    QueryBuilder.build_count qb =
      .ok ("SELECT COUNT(*)" ++ specFromFragment qb ++ specJoinsFragment qb ++
             specWhereFragment qb ++ specGroupFragment qb ++ specHavingFragment qb,
           specWhereParams qb ++ specHavingParams qb) := by
  cases hw : qb.where_clauses <;> cases hh : qb.having <;>
    simp [QueryBuilder.build_count, specFromFragment, specJoinsFragment,
      specWhereFragment, specGroupFragment, specHavingFragment,
      specWhereParams, specHavingParams, hw, hh,
      QueryBuilder.build_where_clause, QueryBuilder.build_filter_operator_list]


/-! ## Claim theorems -/

/-- C1 (amended): for a builder whose WHERE (or HAVING) filter list is
non-empty and whose filter trees are placeholder-safe (no `?` character in
a column name or a `Custom` fragment), the parameter list returned by
`build` is the WHERE parameters followed by the HAVING parameters, the
number of `?` placeholders in a rendered filter list equals its parameter
count, and the parameters come in the left-to-right, depth-first order in
which the placeholders are emitted. -/
theorem C1_placeholder_parameter_correspondence :
    (∀ qb sql params, QueryBuilder.build qb = .ok (sql, params) →
        params = specWhereParams qb ++ specHavingParams qb) ∧
    (∀ fs, fs ≠ [] → qfreeList fs = true →
        countQ (QueryBuilder.build_where_clause fs).fst =
            (QueryBuilder.build_where_clause fs).snd.length ∧
        (QueryBuilder.build_where_clause fs).snd = specOperatorParamsList fs) := by
  constructor
  · intro qb sql params h
    have hd := build_decomposition qb
    rw [h] at hd
    injection hd with h2
    exact congrArg Prod.snd h2
  · intro fs _ hq
    exact ⟨bwc_countQ fs hq, bwc_snd_eq_spec fs⟩

/-- C1 witness: the theorem applied to the one-filter list `x > 5`. -/
theorem C1_witness :
    ([FilterOperator.Single ⟨"x", .Gt, .Single (.Integer 5)⟩] ≠
        ([] : List FilterOperator)) ∧
    qfreeList [FilterOperator.Single ⟨"x", .Gt, .Single (.Integer 5)⟩] = true ∧
    countQ (QueryBuilder.build_where_clause
        [FilterOperator.Single ⟨"x", .Gt, .Single (.Integer 5)⟩]).fst =
      (QueryBuilder.build_where_clause
        [FilterOperator.Single ⟨"x", .Gt, .Single (.Integer 5)⟩]).snd.length :=
  ⟨List.cons_ne_nil _ _, rfl,
    (C1_placeholder_parameter_correspondence.2
      [FilterOperator.Single ⟨"x", .Gt, .Single (.Integer 5)⟩]
      (List.cons_ne_nil _ _) rfl).1⟩

/-- C1 counterexample: the claim as stated fails for a builder whose
(non-empty) WHERE list holds the `Custom` fragment `x = ?` — the emitted
filter text has one `?` placeholder but the parameter list is empty. -/
theorem C1_counterexample :
    ((QueryBuilder.new "t").where_condition "x = ?" []).where_clauses ≠ [] ∧
    QueryBuilder.build ((QueryBuilder.new "t").where_condition "x = ?" []) =
      .ok ("SELECT * FROM t WHERE x = ?", []) ∧
    countQ (QueryBuilder.build_where_clause
        ((QueryBuilder.new "t").where_condition "x = ?" []).where_clauses).fst ≠
      (QueryBuilder.build_where_clause
        ((QueryBuilder.new "t").where_condition "x = ?" []).where_clauses).snd.length := by
  refine ⟨?_, rfl, by decide⟩
  simp [QueryBuilder.where_condition, QueryBuilder.new]

/-- C4: `And` children are rendered recursively and joined with " AND "
inside parentheses, `Or` likewise with " OR ", `Not` wraps its child as
`NOT (child)`, `Custom` text is emitted verbatim with zero parameters, the
top-level filter list is joined with " AND " without surrounding
parentheses, and the spec example renders as
`(x > ? AND (y = ? OR y = ?))` with parameters `[5, 1, 2]`. -/
theorem C4_recursive_rendering :
    (∀ fs, QueryBuilder.build_filter_operator (.And fs) =
        ("(" ++ joinSep " AND "
            (fs.map (fun f => (QueryBuilder.build_filter_operator f).fst)) ++ ")",
         (fs.map (fun f => (QueryBuilder.build_filter_operator f).snd)).flatten)) ∧
    (∀ fs, QueryBuilder.build_filter_operator (.Or fs) =
        ("(" ++ joinSep " OR "
            (fs.map (fun f => (QueryBuilder.build_filter_operator f).fst)) ++ ")",
         (fs.map (fun f => (QueryBuilder.build_filter_operator f).snd)).flatten)) ∧
    (∀ f, QueryBuilder.build_filter_operator (.Not f) =
        ("NOT (" ++ (QueryBuilder.build_filter_operator f).fst ++ ")",
         (QueryBuilder.build_filter_operator f).snd)) ∧
    (∀ c, QueryBuilder.build_filter_operator (.Custom c) = (c, [])) ∧
    (∀ fs, QueryBuilder.build_where_clause fs =
        (joinSep " AND "
            (fs.map (fun f => (QueryBuilder.build_filter_operator f).fst)),
         (fs.map (fun f => (QueryBuilder.build_filter_operator f).snd)).flatten)) ∧
    QueryBuilder.build_filter_operator
        (.And [.Single ⟨"x", .Gt, .Single (.Integer 5)⟩,
               .Or [.Single ⟨"y", .Eq, .Single (.Integer 1)⟩,
                    .Single ⟨"y", .Eq, .Single (.Integer 2)⟩]]) =
      ("(x > ? AND (y = ? OR y = ?))", [.Integer 5, .Integer 1, .Integer 2]) := by
  refine ⟨?_, ?_, fun f => rfl, fun c => rfl, ?_, rfl⟩ <;>
    intro fs <;>
    simp [QueryBuilder.build_filter_operator, QueryBuilder.build_where_clause,
      build_filter_operator_list_eq_map, List.map_map, Function.comp_def]

/-- C5: a single predicate with a null-check operator renders as
`column IS [NOT] NULL` with no parameter; any other operator renders the
column and operator text followed by one `?` and one parameter (`Single`),
a parenthesized comma-joined placeholder list with one parameter per
element (`Multiple`), or `? AND ?` with lower then upper (`Range`); the
spec example emits `id IN (?, ?, ?)` with parameters `[1, 2, 3]`. -/
theorem C5_single_predicate_rendering :
    (∀ col v, QueryBuilder.build_filter ⟨col, .IsNull, v⟩ = (col ++ " IS NULL", [])) ∧
    (∀ col v, QueryBuilder.build_filter ⟨col, .IsNotNull, v⟩ =
        (col ++ " IS NOT NULL", [])) ∧
    (∀ col op v, op ≠ .IsNull → op ≠ .IsNotNull →
        QueryBuilder.build_filter ⟨col, op, .Single v⟩ =
          (col ++ " " ++ op.display ++ " " ++ "?",
           [QueryBuilder.value_to_libsql_value v])) ∧
    (∀ col op vs, op ≠ .IsNull → op ≠ .IsNotNull →
        QueryBuilder.build_filter ⟨col, op, .Multiple vs⟩ =
          (col ++ " " ++ op.display ++ " " ++ "(" ++
             joinSep ", " (vs.map (fun _ => "?")) ++ ")",
           vs.map QueryBuilder.value_to_libsql_value)) ∧
    (∀ col op lo hi, op ≠ .IsNull → op ≠ .IsNotNull →
        QueryBuilder.build_filter ⟨col, op, .Range lo hi⟩ =
          (col ++ " " ++ op.display ++ " " ++ "? AND ?",
           [QueryBuilder.value_to_libsql_value lo,
            QueryBuilder.value_to_libsql_value hi])) ∧
    QueryBuilder.build_filter ⟨"id", .In, .Multiple [.Integer 1, .Integer 2, .Integer 3]⟩ =
      ("id IN (?, ?, ?)", [.Integer 1, .Integer 2, .Integer 3]) := by
  refine ⟨fun col v => rfl, fun col v => rfl, ?_, ?_, ?_, rfl⟩
  · intro col op v h1 h2
    cases op <;>
      first
      | exact absurd rfl h1
      | exact absurd rfl h2
      | simp [QueryBuilder.build_filter, String.append_assoc]
  · intro col op vs h1 h2
    cases op <;>
      first
      | exact absurd rfl h1
      | exact absurd rfl h2
      | simp [QueryBuilder.build_filter, String.append_assoc]
  · intro col op lo hi h1 h2
    cases op <;>
      first
      | exact absurd rfl h1
      | exact absurd rfl h2
      | simp [QueryBuilder.build_filter, String.append_assoc]

/-- C5 witness: the non-null branch applied at `x > 5`. -/
theorem C5_witness :
    (Operator.Gt ≠ Operator.IsNull ∧ Operator.Gt ≠ Operator.IsNotNull) ∧
    QueryBuilder.build_filter ⟨"x", .Gt, .Single (.Integer 5)⟩ =
      ("x > ?", [.Integer 5]) := by
  refine ⟨⟨by decide, by decide⟩, ?_⟩
  rw [C5_single_predicate_rendering.2.2.1 "x" .Gt (.Integer 5) (by decide) (by decide)]
  rfl

theorem execute_count_first_integer (db : Database) (qb : QueryBuilder)
    (sql : String) (params : List LibsqlValue) (row : Row) (rest : List Row) (i : Int)
    (h1 : QueryBuilder.build_count qb = .ok (sql, params))
    (h2 : db sql params = .ok (row :: rest))
    (hv : row.get_value 0 = some (.Integer i)) :
    QueryBuilder.execute_count db qb = .ok (i64_as_u64 i) := by
  simp [QueryBuilder.execute_count, h1, h2, hv]

theorem execute_count_no_row (db : Database) (qb : QueryBuilder)
    (sql : String) (params : List LibsqlValue)
    (h1 : QueryBuilder.build_count qb = .ok (sql, params))
    (h2 : db sql params = .ok []) :
    QueryBuilder.execute_count db qb = .error (.Query "No count result") := by
  simp [QueryBuilder.execute_count, h1, h2]

theorem execute_count_bad_value (db : Database) (qb : QueryBuilder)
    (sql : String) (params : List LibsqlValue) (row : Row) (rest : List Row)
    (h1 : QueryBuilder.build_count qb = .ok (sql, params))
    (h2 : db sql params = .ok (row :: rest))
    (hv : ∀ i : Int, row.get_value 0 ≠ some (.Integer i)) :
    QueryBuilder.execute_count db qb = .error (.Query "Failed to get count") := by
  simp only [QueryBuilder.execute_count, h1, h2]

theorem execute_fst {T : Type} (de : RecordMap → Except Error T) (db : Database)
    (qb : QueryBuilder) (sql : String) (params : List LibsqlValue)
    (h : QueryBuilder.build qb = .ok (sql, params)) :
    (QueryBuilder.execute de db qb).fst = [(sql, params)] := by
  simp only [QueryBuilder.execute, h]
  cases db sql params <;> rfl

theorem execute_paginated_unfold {T : Type} (de : RecordMap → Except Error T)
    (db : Database) (qb : QueryBuilder) (p : Pagination)
    (csql : String) (cparams : List LibsqlValue) (rows : List Row)
    (h1 : QueryBuilder.build_count (QueryBuilder.new qb.table) = .ok (csql, cparams))
    (h3 : db csql cparams = .ok rows) :
    QueryBuilder.execute_paginated de db qb p =
      ((csql, cparams) ::
         (QueryBuilder.execute de db
           ((qb.set_limit p.limit).set_offset p.offset)).fst,
       match (QueryBuilder.execute de db
           ((qb.set_limit p.limit).set_offset p.offset)).snd with
       | .error e => .error e
       | .ok data =>
           .ok (PaginatedResult.with_total data p (QueryBuilder.paginated_total rows))) := by
  have h1' : QueryBuilder.build_count
      ((QueryBuilder.new qb.table).select ["COUNT(*) as count"]) = .ok (csql, cparams) := h1
  simp only [QueryBuilder.execute_paginated, h1', h3]

/-- C3: `build` emits the clause fragments in the fixed grammar order
SELECT/DISTINCT/columns-or-aggregate, FROM, joins in insertion order,
WHERE, GROUP BY, HAVING, ORDER BY, LIMIT, OFFSET; a present aggregate
clause is emitted as `FUNCTION(column)[ AS alias]` and makes the explicit
select-column list irrelevant; a set limit and offset are appended inline
as literal integers and contribute no bound parameter. -/
theorem C3_build_clause_order :
    (∀ qb, QueryBuilder.build qb =
        .ok (specSelectFragment qb ++ specFromFragment qb ++ specJoinsFragment qb ++
               specWhereFragment qb ++ specGroupFragment qb ++ specHavingFragment qb ++
               specOrderFragment qb ++ specLimitFragment qb ++ specOffsetFragment qb,
             specWhereParams qb ++ specHavingParams qb)) ∧
    (∀ (qb : QueryBuilder) agg cols cols2,
        QueryBuilder.build { qb with aggregate := some agg, select_columns := cols } =
          QueryBuilder.build { qb with aggregate := some agg, select_columns := cols2 }) ∧
    (∀ (qb : QueryBuilder) n m,
        QueryBuilder.build { qb with limit := some n, offset := some m } =
          (QueryBuilder.build { qb with limit := none, offset := none }).map
            (fun r => (r.fst ++ " LIMIT " ++ toString n ++ " OFFSET " ++ toString m,
                       r.snd))) := by
  refine ⟨build_decomposition, ?_, ?_⟩
  · intro qb agg cols cols2
    rfl
  · intro qb n m
    simp [QueryBuilder.build, Except.map, String.append_assoc, String.append_empty,
      String.empty_append]

/-- C6: `build_count` emits `SELECT COUNT(*)` followed only by FROM,
joins, WHERE, GROUP BY and HAVING, and its output is invariant under the
builder's select columns, aggregate clause, distinct flag, ORDER BY list,
limit and offset. -/
theorem C6_build_count_shape :
    (∀ qb, QueryBuilder.build_count qb =
        .ok ("SELECT COUNT(*)" ++ specFromFragment qb ++ specJoinsFragment qb ++
               specWhereFragment qb ++ specGroupFragment qb ++ specHavingFragment qb,
             specWhereParams qb ++ specHavingParams qb)) ∧
    (∀ qb cols agg d ords l o,
        QueryBuilder.build_count
            { qb with select_columns := cols, aggregate := agg, distinct := d,
                      order_by := ords, limit := l, offset := o } =
          QueryBuilder.build_count qb) :=
  ⟨build_count_decomposition, fun _ _ _ _ _ _ _ => rfl⟩

/-- C7: `where_in` appends a `Custom` WHERE clause whose text is
`field IN (<subquery SQL>)`, carrying none of the subquery's bound
parameters (and `build` never actually fails, so the empty-string fallback
of `unwrap_or_default` is dead); in the example, the subquery's
parameterized filter leaves an outer `?` with an empty outer parameter
list. -/
theorem C7_where_in :
    (∀ qb field sub sql ps, QueryBuilder.build sub = .ok (sql, ps) →
        QueryBuilder.where_in qb field sub =
          { qb with where_clauses :=
              qb.where_clauses ++
                [FilterOperator.Custom (field ++ " IN (" ++ sql ++ ")")] }) ∧
    (∀ qb, ∃ p, QueryBuilder.build qb = .ok p) ∧
    QueryBuilder.build
        (QueryBuilder.where_in (QueryBuilder.new "t") "id"
          ((QueryBuilder.new "u").rwhere (.Single ⟨"a", .Eq, .Single (.Integer 1)⟩))) =
      .ok ("SELECT * FROM t WHERE id IN (SELECT * FROM u WHERE a = ?)", []) := by
  refine ⟨?_, fun qb => ⟨_, build_decomposition qb⟩, rfl⟩
  intro qb field sub sql ps h
  simp [QueryBuilder.where_in, h]

/-- C7 witness: the append equation applied at a concrete outer builder,
field and subquery. -/
theorem C7_witness :
    QueryBuilder.build (QueryBuilder.new "u") = .ok ("SELECT * FROM u", []) ∧
    QueryBuilder.where_in (QueryBuilder.new "t") "id" (QueryBuilder.new "u") =
      { QueryBuilder.new "t" with where_clauses :=
          [FilterOperator.Custom ("id" ++ " IN (" ++ "SELECT * FROM u" ++ ")")] } :=
  ⟨rfl, by
    rw [C7_where_in.1 (QueryBuilder.new "t") "id" (QueryBuilder.new "u")
      "SELECT * FROM u" [] rfl]
    rfl⟩

/-- C9: both value conversions are total functions over their whole input
type: `Boolean` lowers to integer 1/0 and every other `Value` kind maps
structurally; native integers, text and blobs map structurally to
interchange values, and a non-finite `Real` (NaN or an infinity) maps to
the null interchange value rather than an error. -/
theorem C9_value_conversions_total :
    (QueryBuilder.value_to_libsql_value .Null = .Null) ∧
    (∀ i, QueryBuilder.value_to_libsql_value (.Integer i) = .Integer i) ∧
    (∀ f, QueryBuilder.value_to_libsql_value (.Real f) = .Real f) ∧
    (∀ s, QueryBuilder.value_to_libsql_value (.Text s) = .Text s) ∧
    (∀ b, QueryBuilder.value_to_libsql_value (.Blob b) = .Blob b) ∧
    (∀ b, QueryBuilder.value_to_libsql_value (.Boolean b) =
        .Integer (if b then 1 else 0)) ∧
    (QueryBuilder.libsql_value_to_json_value .Null = .null) ∧
    (∀ i, QueryBuilder.libsql_value_to_json_value (.Integer i) = .number (.int i)) ∧
    (∀ s, QueryBuilder.libsql_value_to_json_value (.Text s) = .str s) ∧
    (∀ b, QueryBuilder.libsql_value_to_json_value (.Blob b) =
        .arr (b.map (fun byte => .number (.int byte)))) ∧
    (∀ v, QueryBuilder.libsql_value_to_json_value (.Real (.finite v)) =
        .number (.float v)) ∧
    (QueryBuilder.libsql_value_to_json_value (.Real .nan) = .null) ∧
    (QueryBuilder.libsql_value_to_json_value (.Real .inf) = .null) ∧
    (QueryBuilder.libsql_value_to_json_value (.Real .negInf) = .null) :=
  ⟨rfl, fun _ => rfl, fun _ => rfl, fun _ => rfl, fun _ => rfl, fun _ => rfl,
   rfl, fun _ => rfl, fun _ => rfl, fun _ => rfl, fun _ => rfl, rfl, rfl, rfl⟩

/-- C8: `execute_count` runs `build_count` and, given the backend's rows
for that statement, succeeds with the integer exactly when there is a
first row whose first value is an integer; no row at all, or a first
value that is absent or not an integer, is a `Query` error. -/
theorem C8_execute_count_expects_integer :
    ∀ (db : Database) (qb : QueryBuilder) sql params rows,
      QueryBuilder.build_count qb = .ok (sql, params) →
      db sql params = .ok rows →
      ((∀ row rest i, rows = row :: rest → row.get_value 0 = some (.Integer i) →
          QueryBuilder.execute_count db qb = .ok (i64_as_u64 i)) ∧
       (rows = [] →
          QueryBuilder.execute_count db qb = .error (.Query "No count result")) ∧
       (∀ row rest, rows = row :: rest →
          (∀ i, row.get_value 0 ≠ some (.Integer i)) →
          QueryBuilder.execute_count db qb = .error (.Query "Failed to get count")) ∧
       ((∃ n, QueryBuilder.execute_count db qb = .ok n) ↔
          ∃ row rest i, rows = row :: rest ∧ row.get_value 0 = some (.Integer i))) := by
  intro db qb sql params rows h1 h2
  refine ⟨?_, ?_, ?_, ?_⟩
  · intro row rest i hr hv
    subst hr
    exact execute_count_first_integer db qb sql params row rest i h1 h2 hv
  · intro hr
    subst hr
    exact execute_count_no_row db qb sql params h1 h2
  · intro row rest hr hv
    subst hr
    exact execute_count_bad_value db qb sql params row rest h1 h2 hv
  · constructor
    · rintro ⟨n, hn⟩
      match rows, h2 with
      | [], h2 =>
          rw [execute_count_no_row db qb sql params h1 h2] at hn
          exact absurd hn (by simp)
      | row :: rest, h2 =>
          refine ⟨row, rest, ?_⟩
          by_contra hno
          push_neg at hno
          have : ∀ i, row.get_value 0 ≠ some (.Integer i) := by
            intro i hi
            exact absurd hi (by simpa using hno i)
          rw [execute_count_bad_value db qb sql params row rest h1 h2 this] at hn
          exact absurd hn (by simp)
    · rintro ⟨row, rest, i, hr, hv⟩
      subst hr
      exact ⟨i64_as_u64 i, execute_count_first_integer db qb sql params row rest i h1 h2 hv⟩

/-- C8 witness: a backend returning one row holding integer 7 makes
`execute_count` return 7; the theorem applied at that backend. -/
theorem C8_witness :
    QueryBuilder.build_count (QueryBuilder.new "t") = .ok ("SELECT COUNT(*) FROM t", []) ∧
    QueryBuilder.execute_count
        (fun _ _ => .ok [Row.mk [(none, some (.Integer 7))]]) (QueryBuilder.new "t") =
      .ok 7 :=
  ⟨rfl,
    (C8_execute_count_expects_integer
        (fun _ _ => .ok [Row.mk [(none, some (.Integer 7))]]) (QueryBuilder.new "t")
        "SELECT COUNT(*) FROM t" [] [Row.mk [(none, some (.Integer 7))]]
        rfl rfl).1 (Row.mk [(none, some (.Integer 7))]) [] 7 rfl rfl⟩

/-- C2: when the count statement succeeds, `execute_paginated` issues
exactly two statements — the COUNT statement of a fresh builder holding
only the original builder's table name (no WHERE clauses or joins
inherited) and the data statement of the original builder with limit and
offset overridden from the pagination spec — and, when the data statement
also succeeds, returns the envelope of the page and that total count. -/
theorem C2_execute_paginated_two_statements :
    ∀ (T : Type) (de : RecordMap → Except Error T) (db : Database)
      (qb : QueryBuilder) (p : Pagination) csql cparams dsql dparams rows,
      QueryBuilder.build_count (QueryBuilder.new qb.table) = .ok (csql, cparams) →
      QueryBuilder.build ((qb.set_limit p.limit).set_offset p.offset) =
        .ok (dsql, dparams) →
      db csql cparams = .ok rows →
      ((QueryBuilder.execute_paginated de db qb p).fst =
          [(csql, cparams), (dsql, dparams)] ∧
       ∀ data,
         (QueryBuilder.execute de db
             ((qb.set_limit p.limit).set_offset p.offset)).snd = .ok data →
         (QueryBuilder.execute_paginated de db qb p).snd =
           .ok (PaginatedResult.with_total data p
                  (QueryBuilder.paginated_total rows))) := by
  intro T de db qb p csql cparams dsql dparams rows h1 h2 h3
  have hu := execute_paginated_unfold de db qb p csql cparams rows h1 h3
  constructor
  · rw [hu]
    simp [execute_fst de db _ dsql dparams h2]
  · intro data hd
    rw [hu]
    simp [hd]

/-- C2 witness: the theorem applied to a backend returning no rows, a
fresh table-`t` builder, and pagination limit 10 / offset 20. -/
theorem C2_witness :
    QueryBuilder.build_count (QueryBuilder.new "t") = .ok ("SELECT COUNT(*) FROM t", []) ∧
    QueryBuilder.build
        (((QueryBuilder.new "t").set_limit 10).set_offset 20) =
      .ok ("SELECT * FROM t LIMIT 10 OFFSET 20", []) ∧
    (QueryBuilder.execute_paginated (fun m => .ok m) (fun _ _ => .ok [])
        (QueryBuilder.new "t") ⟨10, 20⟩).fst =
      [("SELECT COUNT(*) FROM t", []), ("SELECT * FROM t LIMIT 10 OFFSET 20", [])] :=
  ⟨rfl, rfl,
    (C2_execute_paginated_two_statements RecordMap (fun m => .ok m) (fun _ _ => .ok [])
        (QueryBuilder.new "t") ⟨10, 20⟩ "SELECT COUNT(*) FROM t" []
        "SELECT * FROM t LIMIT 10 OFFSET 20" [] [] rfl rfl rfl).1⟩

/-- C10: an empty count result, or a first row whose first value is
absent or not an integer, makes `execute_paginated` report total 0 while
still succeeding whenever the data sub-query succeeds — whereas
`execute_count` maps those same row shapes to `Query` errors. -/
theorem C10_paginated_total_defaults_to_zero :
    (∀ rows, (rows = [] ∨ ∃ row rest, rows = row :: rest ∧
          ∀ i, row.get_value 0 ≠ some (.Integer i)) →
        QueryBuilder.paginated_total rows = 0) ∧
    (∀ (T : Type) (de : RecordMap → Except Error T) (db : Database)
        (qb : QueryBuilder) (p : Pagination) csql cparams rows data,
        QueryBuilder.build_count (QueryBuilder.new qb.table) = .ok (csql, cparams) →
        db csql cparams = .ok rows →
        QueryBuilder.paginated_total rows = 0 →
        (QueryBuilder.execute de db
            ((qb.set_limit p.limit).set_offset p.offset)).snd = .ok data →
        (QueryBuilder.execute_paginated de db qb p).snd =
          .ok (PaginatedResult.with_total data p 0)) ∧
    (∀ (db : Database) (qb : QueryBuilder) sql params,
        QueryBuilder.build_count qb = .ok (sql, params) →
        (db sql params = .ok [] →
          QueryBuilder.execute_count db qb = .error (.Query "No count result")) ∧
        (∀ row rest, db sql params = .ok (row :: rest) →
          (∀ i, row.get_value 0 ≠ some (.Integer i)) →
          QueryBuilder.execute_count db qb =
            .error (.Query "Failed to get count"))) := by
  refine ⟨?_, ?_, ?_⟩
  · rintro rows (rfl | ⟨row, rest, rfl, hv⟩)
    · rfl
    · simp only [QueryBuilder.paginated_total]
  · intro T de db qb p csql cparams rows data h1 h3 htot hd
    rw [execute_paginated_unfold de db qb p csql cparams rows h1 h3]
    simp [hd, htot]
  · intro db qb sql params h1
    exact ⟨fun h2 => execute_count_no_row db qb sql params h1 h2,
           fun row rest h2 hv => execute_count_bad_value db qb sql params row rest h1 h2 hv⟩

/-- C10 witness: the theorem applied to a backend returning no rows — the
paginated call succeeds with total 0 while `execute_count` errors. -/
theorem C10_witness :
    QueryBuilder.paginated_total [] = 0 ∧
    (QueryBuilder.execute_paginated (fun m => .ok m) (fun _ _ => .ok [])
        (QueryBuilder.new "t") ⟨10, 20⟩).snd =
      .ok (PaginatedResult.with_total ([] : List RecordMap) ⟨10, 20⟩ 0) ∧
    QueryBuilder.execute_count (fun _ _ => .ok []) (QueryBuilder.new "t") =
      .error (.Query "No count result") :=
  ⟨C10_paginated_total_defaults_to_zero.1 [] (Or.inl rfl),
   C10_paginated_total_defaults_to_zero.2.1 RecordMap (fun m => .ok m) (fun _ _ => .ok [])
     (QueryBuilder.new "t") ⟨10, 20⟩ "SELECT COUNT(*) FROM t" [] [] [] rfl rfl rfl rfl,
   (C10_paginated_total_defaults_to_zero.2.2 (fun _ _ => .ok []) (QueryBuilder.new "t")
     "SELECT COUNT(*) FROM t" [] rfl).1 rfl⟩

end LibsqlOrm
